import Mathlib

/-!
Shallow embedding of the certmgr repository (src/python/certmgr.py and
src/python/api_server.py) together with proofs about the embedded
definitions.  Python strings are modelled as List Char; filesystem state,
interactive answers and results of the external openssl tool are passed
explicitly as parameters.
-/

namespace Certmgr

/-- The characters treated as whitespace by the Python str.strip method
(restricted to the ASCII range, which is all that occurs in the index file). -/
def py_is_space (c : Char) : Bool :=
  c = ' ' || c = '\t' || c = '\n' || c = '\r' || c = Char.ofNat 11 || c = Char.ofNat 12

/-- Python str.strip with no argument: removes whitespace from both ends. -/
def py_strip (s : List Char) : List Char :=
  ((s.dropWhile py_is_space).reverse.dropWhile py_is_space).reverse

/-- Python str.split with an explicit one-character separator: splits at every
occurrence of the separator and keeps empty fields, so the empty string yields
one empty field. -/
def py_split_on (sep : Char) : List Char → List (List Char)
  | [] => [[]]
  | c :: t =>
    if c = sep then [] :: py_split_on sep t
    else
      match py_split_on sep t with
      | [] => [[c]]
      | f :: rest => (c :: f) :: rest

/-- Fields of a line after splitting on tab, as in line.strip().split of the
source (certmgr.py line 429 and api_server.py line 348). -/
def split_tab (s : List Char) : List (List Char) := py_split_on '\t' s

/-- Splitting file content into lines (iteration over a text file in Python
yields the same stripped lines as splitting on the newline character, because
every line is passed through py_strip afterwards). -/
def split_nl (s : List Char) : List (List Char) := py_split_on '\n' s

/-- One scanning pass of Python str.replace for a nonempty pattern: scan left
to right, replacing non-overlapping occurrences of pat by rep.  The fuel
argument bounds the recursion; it is always called with fuel at least the
length of the string, which makes the fuel irrelevant. -/
def pyReplaceFuel (pat rep : List Char) : Nat → List Char → List Char
  | _, [] => []
  | 0, s => s
  | fuel + 1, c :: t =>
    if pat.isPrefixOf (c :: t) then
      rep ++ pyReplaceFuel pat rep fuel (t.drop (pat.length - 1))
    else
      c :: pyReplaceFuel pat rep fuel t

/-- Python str.replace.  For an empty pattern CPython inserts the replacement
before every character and at the end; for a nonempty pattern it replaces
non-overlapping occurrences left to right. -/
def py_replace (s pat rep : List Char) : List Char :=
  if pat.isEmpty then rep ++ s.flatMap (fun c => c :: rep)
  else pyReplaceFuel pat rep s.length s

/-- Python str.lower restricted to ASCII letters (the only case-relevant
characters in the overwrite confirmation check of the source). -/
def char_lower (c : Char) : Char :=
  if 'A' ≤ c ∧ c ≤ 'Z' then Char.ofNat (c.toNat + 32) else c

/-- Python str.lower on a whole string. -/
def py_lower (s : List Char) : List Char := s.map char_lower

/-- Decimal rendering of a number, as Python str() on an int. -/
def natStr (n : Nat) : List Char := Nat.toDigits 10 n

/-- The opening brace character, written by its code point. -/
def lbrace : Char := Char.ofNat 123

/-- The closing brace character, written by its code point. -/
def rbrace : Char := Char.ofNat 125

/-- The placeholder text for a template variable: two opening braces, the key,
two closing braces (the f-string at certmgr.py line 69). -/
def placeholder (key : List Char) : List Char :=
  lbrace :: lbrace :: (key ++ [rbrace, rbrace])

/-- CertificateManager render-template (certmgr.py lines 63 to 74), restricted
to its pure content transformation: for each key/value pair of the variable
map, in iteration order, replace every occurrence of the placeholder of the
key by the value.  Python dicts iterate in insertion order, so the map is
modelled as an association list. -/
def render_template_content (content : List Char) (vars : List (List Char × List Char)) : List Char :=
  vars.foldl (fun acc kv => py_replace acc (placeholder kv.1) kv.2) content

/-- Filename sanitisation in CertificateManager.create_csr (certmgr.py
line 275): replace every star with the text wildcard, then every slash with
an underscore. -/
def safe_name (common_name : List Char) : List Char :=
  py_replace (py_replace common_name ( "*".toList) ( "wildcard".toList)) ( "/".toList) ( "_".toList)

/-- Result of one invocation of the external openssl process, as captured by
subprocess.run in certmgr.py line 80 (returncode is an int in Python, negative
for signal deaths, so it is modelled as an integer). -/
structure CompletedProcess where
  returncode : Int
  stdout : List Char
  stderr : List Char

/-- CertificateManager run-openssl (certmgr.py lines 76 to 84): if the tool
exits non-zero the wrapper prints the captured stderr and terminates the
process with sys.exit(1), modelled as the error case carrying the stderr
text; otherwise the CompletedProcess is returned unchanged. -/
def run_openssl (result : CompletedProcess) : Except (List Char) CompletedProcess :=
  if result.returncode ≠ 0 then Except.error result.stderr else Except.ok result

/-- A command line passed to the external tool: the argument list after the
leading openssl word. -/
abbrev Cmd : Type := List (List Char)

/-- The behaviour of the external tool on this run, indexed by command line. -/
abbrev Oracle : Type := Cmd → CompletedProcess

/-- Path of the intermediate CA openssl configuration, relative to the base
directory of the repository checkout. -/
def inter_cnf : List Char := "conf/intermediate.cnf".toList

/-- Path of the root CA openssl configuration. -/
def root_cnf : List Char := "conf/rootca.cnf".toList

/-- Path of the generated certificate revocation list (certmgr.py line 383). -/
def crl_path : List Char := "crl/intermediate.crl.pem".toList

/-- Path of the root CA private key. -/
def root_key_path : List Char := "ca/root/private/ca.key.pem".toList

/-- Path of the root CA certificate. -/
def root_cert_path : List Char := "ca/root/certs/ca.cert.pem".toList

/-- Path of the intermediate CA private key. -/
def inter_key_path : List Char := "ca/intermediate/private/intermediate.key.pem".toList

/-- Path of the intermediate CA signing request. -/
def inter_csr_path : List Char := "ca/intermediate/csr/intermediate.csr.pem".toList

/-- Path of the intermediate CA certificate. -/
def inter_cert_path : List Char := "ca/intermediate/certs/intermediate.cert.pem".toList

/-- Path of the certificate chain file. -/
def inter_chain_path : List Char := "ca/intermediate/certs/ca-chain.cert.pem".toList

/-- The revoke command built at certmgr.py lines 369 to 373. -/
def cmd_revoke (cert : List Char) : Cmd :=
  [ "ca".toList, "-config".toList, inter_cnf, "-revoke".toList, cert]

/-- The CRL generation command built at certmgr.py lines 386 to 391; its
-out argument is the CRL file path. -/
def cmd_gencrl : Cmd :=
  [ "ca".toList, "-config".toList, inter_cnf, "-gencrl".toList, "-out".toList, crl_path]

/-- The CRL display command built at certmgr.py lines 396 to 401. -/
def cmd_crl_text : Cmd :=
  [ "crl".toList, "-in".toList, crl_path, "-noout".toList, "-text".toList]

/-- The certificate display command of display-cert-info (certmgr.py
lines 406 to 412). -/
def cmd_x509_info (cert : List Char) : Cmd :=
  [ "x509".toList, "-in".toList, cert, "-noout".toList, "-text".toList,
    "-certopt".toList, "no_pubkey,no_sigdump".toList]

/-- The 4096-bit key generation command (certmgr.py lines 183 to 188 and
227 to 232). -/
def cmd_genrsa (keyfile : List Char) : Cmd :=
  [ "genrsa".toList, "-aes256".toList, "-out".toList, keyfile, "4096".toList]

/-- The self-signed root certificate command (certmgr.py lines 192 to 201). -/
def cmd_req_root (days : Nat) : Cmd :=
  [ "req".toList, "-config".toList, root_cnf, "-key".toList, root_key_path,
    "-new".toList, "-x509".toList, "-days".toList, natStr days, "-sha256".toList,
    "-extensions".toList, "v3_ca".toList, "-out".toList, root_cert_path]

/-- The intermediate CSR command (certmgr.py lines 237 to 243). -/
def cmd_req_inter : Cmd :=
  [ "req".toList, "-config".toList, inter_cnf, "-new".toList, "-sha256".toList,
    "-key".toList, inter_key_path, "-out".toList, inter_csr_path]

/-- The command signing the intermediate CSR with the root CA (certmgr.py
lines 246 to 255). -/
def cmd_sign_inter (days : Nat) : Cmd :=
  [ "ca".toList, "-config".toList, root_cnf, "-extensions".toList,
    "v3_intermediate_ca".toList, "-days".toList, natStr days, "-notext".toList,
    "-md".toList, "sha256".toList, "-in".toList, inter_csr_path,
    "-out".toList, inter_cert_path, "-batch".toList]

/-- The command signing a user or server CSR with the intermediate CA
(certmgr.py lines 341 to 350). -/
def cmd_sign_cert (ext : List Char) (days : Nat) (csr cert : List Char) : Cmd :=
  [ "ca".toList, "-config".toList, inter_cnf, "-extensions".toList, ext,
    "-days".toList, natStr days, "-notext".toList, "-md".toList, "sha256".toList,
    "-in".toList, csr, "-out".toList, cert, "-batch".toList]

/-- CertificateManager.update_crl (certmgr.py lines 378 to 402): generate the
CRL, then display it.  The first component is the list of openssl command
lines actually invoked, in order; the operation aborts at the first failing
invocation with its stderr text. -/
def update_crl (oracle : Oracle) : List Cmd × Except (List Char) Unit :=
  match run_openssl (oracle cmd_gencrl) with
  | Except.error e => ([cmd_gencrl], Except.error e)
  | Except.ok _ =>
    match run_openssl (oracle cmd_crl_text) with
    | Except.error e => ([cmd_gencrl, cmd_crl_text], Except.error e)
    | Except.ok _ => ([cmd_gencrl, cmd_crl_text], Except.ok ())

/-- CertificateManager.revoke_certificate (certmgr.py lines 359 to 376): if
the certificate file does not exist the command exits with a not-found error
before any tool invocation; otherwise the revoke command runs and, on its
success, update_crl is invoked.  First component: openssl command lines
invoked, in order. -/
def revoke_certificate (oracle : Oracle) (cert : List Char) (cert_exists : Bool) :
    List Cmd × Except (List Char) Unit :=
  if cert_exists = false then ([], Except.error ( "Certificate not found: ".toList ++ cert))
  else
    match run_openssl (oracle (cmd_revoke cert)) with
    | Except.error e => ([cmd_revoke cert], Except.error e)
    | Except.ok _ =>
      let rest := update_crl oracle
      (cmd_revoke cert :: rest.1, rest.2)

/-- Index of the last dot of a name, as Python str.rfind of a dot. -/
def rfind_dot (n : List Char) : Option Nat :=
  (n.reverse.findIdx? (fun c => c = '.')).map (fun j => n.length - 1 - j)

/-- The component of a path after the last slash, as pathlib Path.name. -/
def path_name (p : List Char) : List Char :=
  ((p.reverse.takeWhile (fun c => c ≠ '/')).reverse)

/-- pathlib Path.stem: the final component without its last suffix; a dot at
position zero or at the very end does not start a suffix. -/
def path_stem (p : List Char) : List Char :=
  let n := path_name p
  match rfind_dot n with
  | none => n
  | some i => if 0 < i ∧ i < n.length - 1 then n.take i else n

/-- CertificateManager.sign_certificate (certmgr.py lines 324 to 357): abort
with a not-found error when the CSR file is missing, otherwise run the ca
signing command for the computed output certificate path and display the
certificate.  First component: openssl command lines invoked, in order; the
success value is the issued certificate path. -/
def sign_certificate_cli (oracle : Oracle) (cert_days : Nat) (csr_path : List Char)
    (cert_type : List Char) (csr_exists : Bool) :
    List Cmd × Except (List Char) (List Char) :=
  if csr_exists = false then ([], Except.error ( "CSR not found: ".toList ++ csr_path))
  else
    let ext := if cert_type = "server".toList then "server_cert".toList else "usr_cert".toList
    let cert_name := py_replace (path_stem csr_path) ( ".csr".toList) []
    let cert_file := "issued_certificates/".toList ++ cert_name ++ ".cert.pem".toList
    let c := cmd_sign_cert ext cert_days csr_path cert_file
    match run_openssl (oracle c) with
    | Except.error e => ([c], Except.error e)
    | Except.ok _ =>
      match run_openssl (oracle (cmd_x509_info cert_file)) with
      | Except.error e => ([c, cmd_x509_info cert_file], Except.error e)
      | Except.ok _ => ([c, cmd_x509_info cert_file], Except.ok cert_file)

/-- CertificateManager.create_root_ca (certmgr.py lines 168 to 206).  When
the root certificate already exists and the interactive answer, lowered, is
not the word yes, the method returns at once: no tool invocation and no file
write.  Otherwise it generates the key, the self-signed certificate, and
displays it.  Components: openssl command lines invoked, files written or
chmodded by the script or by a completed tool invocation, and the outcome. -/
def create_root_ca (oracle : Oracle) (root_ca_days : Nat) (cert_exists : Bool)
    (response : List Char) :
    List Cmd × List (List Char) × Except (List Char) Unit :=
  if cert_exists && !(py_lower response == "yes".toList) then ([], [], Except.ok ())
  else
    match run_openssl (oracle (cmd_genrsa root_key_path)) with
    | Except.error e => ([cmd_genrsa root_key_path], [], Except.error e)
    | Except.ok _ =>
      match run_openssl (oracle (cmd_req_root root_ca_days)) with
      | Except.error e =>
        ([cmd_genrsa root_key_path, cmd_req_root root_ca_days], [root_key_path], Except.error e)
      | Except.ok _ =>
        match run_openssl (oracle (cmd_x509_info root_cert_path)) with
        | Except.error e =>
          ([cmd_genrsa root_key_path, cmd_req_root root_ca_days, cmd_x509_info root_cert_path],
            [root_key_path, root_cert_path], Except.error e)
        | Except.ok _ =>
          ([cmd_genrsa root_key_path, cmd_req_root root_ca_days, cmd_x509_info root_cert_path],
            [root_key_path, root_cert_path], Except.ok ())

/-- CertificateManager.create_intermediate_ca (certmgr.py lines 208 to 268),
with the same overwrite guard as the root variant; on the full path it
generates the key, the CSR, the certificate signed by the root CA, writes the
chain file and displays the certificate. -/
def create_intermediate_ca (oracle : Oracle) (inter_ca_days : Nat) (cert_exists : Bool)
    (response : List Char) :
    List Cmd × List (List Char) × Except (List Char) Unit :=
  if cert_exists && !(py_lower response == "yes".toList) then ([], [], Except.ok ())
  else
    match run_openssl (oracle (cmd_genrsa inter_key_path)) with
    | Except.error e => ([cmd_genrsa inter_key_path], [], Except.error e)
    | Except.ok _ =>
      match run_openssl (oracle cmd_req_inter) with
      | Except.error e =>
        ([cmd_genrsa inter_key_path, cmd_req_inter], [inter_key_path], Except.error e)
      | Except.ok _ =>
        match run_openssl (oracle (cmd_sign_inter inter_ca_days)) with
        | Except.error e =>
          ([cmd_genrsa inter_key_path, cmd_req_inter, cmd_sign_inter inter_ca_days],
            [inter_key_path, inter_csr_path], Except.error e)
        | Except.ok _ =>
          match run_openssl (oracle (cmd_x509_info inter_cert_path)) with
          | Except.error e =>
            ([cmd_genrsa inter_key_path, cmd_req_inter, cmd_sign_inter inter_ca_days,
              cmd_x509_info inter_cert_path],
              [inter_key_path, inter_csr_path, inter_cert_path, inter_chain_path], Except.error e)
          | Except.ok _ =>
            ([cmd_genrsa inter_key_path, cmd_req_inter, cmd_sign_inter inter_ca_days,
              cmd_x509_info inter_cert_path],
              [inter_key_path, inter_csr_path, inter_cert_path, inter_chain_path], Except.ok ())

/-- The three bookkeeping files of one CA directory, each either missing or
present with some content. -/
structure CAFiles where
  index : Option (List Char)
  serial : Option (List Char)
  crlnumber : Option (List Char)
deriving DecidableEq

/-- The file-creation portion of CertificateManager.init for one CA directory
(certmgr.py lines 152 to 163): touch the index file when missing (creating it
empty), and write the string 1000 followed by a newline into the serial and
crlnumber files when they are missing; files that exist are not written. -/
def init_ca_dir (f : CAFiles) : CAFiles where
  index := some (f.index.getD [])
  serial := some (f.serial.getD ( "1000\n".toList))
  crlnumber := some (f.crlnumber.getD ( "1000\n".toList))

/-- The bookkeeping files of the root and the intermediate CA directories. -/
structure CAState where
  root : CAFiles
  inter : CAFiles
deriving DecidableEq

/-- The loop of CertificateManager.init over the two CA directories
(certmgr.py line 145). -/
def init_ca_files (s : CAState) : CAState where
  root := init_ca_dir s.root
  inter := init_ca_dir s.inter

/-- One parsed row of the certificate index, in the order unpacked at
certmgr.py line 431 (the fifth field is discarded by the source). -/
structure CertEntry where
  status : List Char
  exp_date : List Char
  rev_date : List Char
  serial : List Char
  subject : List Char
deriving DecidableEq

/-- The message of the Python ValueError raised by unpacking a tuple of the
wrong size. -/
def value_error_msg : List Char := "ValueError: too many values to unpack".toList

/-- The per-line loop shared by CertificateManager.list_certificates
(certmgr.py lines 427 to 433) and the list endpoint (api_server.py lines 346
to 357): each line is stripped and split on tabs; lines with fewer than six
fields are skipped; a line passing the six-or-more guard is unpacked into
exactly six names, which raises ValueError when the line has more than six
fields and aborts the whole listing. -/
def parse_index_lines : List (List Char) → Except (List Char) (List CertEntry)
  | [] => Except.ok []
  | line :: rest =>
    if 6 ≤ (split_tab (py_strip line)).length then
      match split_tab (py_strip line) with
      | [s, e, r, ser, _, sub] =>
        match parse_index_lines rest with
        | Except.error msg => Except.error msg
        | Except.ok es => Except.ok (CertEntry.mk s e r ser sub :: es)
      | _ => Except.error value_error_msg
    else parse_index_lines rest

/-- Listing certificates from the full content of the index file. -/
def list_certificates_parse (content : List Char) : Except (List Char) (List CertEntry) :=
  parse_index_lines (split_nl content)

/-- The entry produced for a single line when no line of the file aborts the
listing: defined directly from the shape of the split line, for comparison
with parse_index_lines. -/
def line_entry (line : List Char) : Option CertEntry :=
  match split_tab (py_strip line) with
  | [s, e, r, ser, _, sub] => some (CertEntry.mk s e r ser sub)
  | _ => none

/-- JSON values, for the bodies of REST responses. -/
inductive JVal where
  | null : JVal
  | bool : Bool → JVal
  | num : Nat → JVal
  | str : List Char → JVal
  | arr : List JVal → JVal
  | obj : List (List Char × JVal) → JVal

/-- Whether a JSON object carries a field of the given name. -/
def has_key (j : JVal) (k : List Char) : Bool :=
  match j with
  | JVal.obj fields => fields.any (fun f => f.1 == k)
  | _ => false

/-- The uniform response envelope: an object with the success, message and
data fields (the StatusResponse model, api_server.py lines 101 to 105). -/
def status_response (success : Bool) (message : List Char) (data : JVal) : JVal :=
  JVal.obj [( "success".toList, JVal.bool success),
            ( "message".toList, JVal.str message),
            ( "data".toList, data)]

/-- Whether a response body is the success/message/data envelope. -/
def is_envelope (j : JVal) : Bool :=
  has_key j ( "success".toList) && has_key j ( "message".toList) && has_key j ( "data".toList)

/-- Success body of the init endpoint (api_server.py lines 147 to 151). -/
def init_success_body (config : List (List Char × JVal)) : JVal :=
  status_response true ( "Certificate management system initialized successfully".toList)
    (JVal.obj [( "config".toList, JVal.obj config)])

/-- Success body of the root CA endpoint (api_server.py lines 171 to 178). -/
def root_ca_success_body (cert : List Char) (days : Nat) : JVal :=
  status_response true ( "Root CA created successfully".toList)
    (JVal.obj [( "certificate".toList, JVal.str cert),
               ( "validity_days".toList, JVal.num days)])

/-- Success body of the intermediate CA endpoint (api_server.py lines 199
to 207). -/
def inter_ca_success_body (cert chain : List Char) (days : Nat) : JVal :=
  status_response true ( "Intermediate CA created successfully".toList)
    (JVal.obj [( "certificate".toList, JVal.str cert),
               ( "chain".toList, JVal.str chain),
               ( "validity_days".toList, JVal.num days)])

/-- Success body of the CSR endpoint (api_server.py lines 233 to 242). -/
def csr_success_body (csr key cn ty : List Char) : JVal :=
  status_response true ( "CSR created successfully".toList)
    (JVal.obj [( "csr_file".toList, JVal.str csr),
               ( "private_key".toList, JVal.str key),
               ( "common_name".toList, JVal.str cn),
               ( "type".toList, JVal.str ty)])

/-- Success body of the sign endpoint (api_server.py lines 265 to 272). -/
def sign_success_body (cert : List Char) (days : Nat) : JVal :=
  status_response true ( "Certificate signed successfully".toList)
    (JVal.obj [( "certificate".toList, JVal.str cert),
               ( "validity_days".toList, JVal.num days)])

/-- Success body of the revoke endpoint (api_server.py lines 295 to 299). -/
def revoke_success_body (cert : List Char) : JVal :=
  status_response true ( "Certificate revoked successfully".toList)
    (JVal.obj [( "certificate".toList, JVal.str cert)])

/-- Success body of the CRL update endpoint (api_server.py lines 321
to 325). -/
def crl_success_body (crl : List Char) : JVal :=
  status_response true ( "CRL updated successfully".toList)
    (JVal.obj [( "crl_file".toList, JVal.str crl)])

/-- Body of the health check endpoint (api_server.py lines 110 to 118). -/
def health_body (environment : List Char) : JVal :=
  JVal.obj [( "service".toList, JVal.str ( "X509 Certificate Management API".toList)),
            ( "version".toList, JVal.str ( "1.0.0".toList)),
            ( "status".toList, JVal.str ( "operational".toList)),
            ( "environment".toList, JVal.str environment)]

/-- JSON rendering of one certificate row by the list endpoint (api_server.py
lines 351 to 357). -/
def entry_json (e : CertEntry) : JVal :=
  JVal.obj [( "status".toList, if e.status = "V".toList then JVal.str ( "valid".toList) else JVal.str ( "revoked".toList)),
            ( "serial".toList, JVal.str e.serial),
            ( "subject".toList, JVal.str e.subject),
            ( "expiration".toList, JVal.str e.exp_date),
            ( "revocation_date".toList, if e.rev_date.isEmpty then JVal.null else JVal.str e.rev_date)]

/-- Success body of the list endpoint (api_server.py line 359): an object with
the certificates and count fields only. -/
def list_success_body (entries : List CertEntry) : JVal :=
  JVal.obj [( "certificates".toList, JVal.arr (entries.map entry_json)),
            ( "count".toList, JVal.num entries.length)]

/-- Body of the config endpoint (api_server.py line 393): the raw
configuration dictionary itself. -/
def config_endpoint_body (config : List (List Char × JVal)) : JVal :=
  JVal.obj config

/-- The default configuration built by CertificateManager (certmgr.py
lines 41 to 55), as a JSON object, parameterised by the machine fqdn. -/
def default_config (fqdn : List Char) : List (List Char × JVal) :=
  [( "country".toList, JVal.str ( "US".toList)),
   ( "state".toList, JVal.str ( "California".toList)),
   ( "locality".toList, JVal.str ( "San Francisco".toList)),
   ( "organization".toList, JVal.str ( "Local Development CA".toList)),
   ( "root_ca_cn".toList, JVal.str ( "Root CA ".toList ++ fqdn)),
   ( "inter_ca_cn".toList, JVal.str ( "Intermediate CA ".toList ++ fqdn)),
   ( "root_ca_days".toList, JVal.num 3650),
   ( "inter_ca_days".toList, JVal.num 1825),
   ( "cert_days".toList, JVal.num 365),
   ( "fqdn".toList, JVal.str fqdn)]

/-- The attribute names that resolve on a CertificateManager instance: the
single instance attribute set in its constructor plus the methods of the
class (certmgr.py lines 27 to 433).  The module-level directory constants
CA_DIR, CSR_DIR, ISSUED_DIR and CRL_DIR of certmgr.py lines 18 to 24 are not
attributes of the class or of its instances. -/
def cm_attr_names : List (List Char) :=
  [ "config".toList, "_load_config".toList, "_get_default_config".toList,
    "_save_config".toList, "_render_template".toList, "_run_openssl".toList,
    "init".toList, "create_root_ca".toList, "create_intermediate_ca".toList,
    "create_csr".toList, "sign_certificate".toList, "revoke_certificate".toList,
    "update_crl".toList, "_display_cert_info".toList, "list_certificates".toList]

/-- Python attribute lookup on the shared cert-mgr instance of api_server.py:
it succeeds exactly for the names in cm_attr_names and otherwise raises
AttributeError.  The looked-up value is irrelevant to every reachable use in
the server, so the name itself stands for it. -/
def cm_lookup (name : List Char) : Option (List Char) :=
  if name ∈ cm_attr_names then some name else none

/-- The message of the AttributeError raised by a failing attribute lookup. -/
def attr_error_msg (name : List Char) : List Char :=
  "AttributeError: CertificateManager object has no attribute ".toList ++ name

/-- Observable outcome of one REST request: a JSON body, a file download, an
HTTPException carrying a status code and detail text, or an uncaught Python
exception, which the framework turns into a plain internal-server-error
response. -/
inductive ApiResponse where
  | ok : JVal → ApiResponse
  | fileResponse : List Char → ApiResponse
  | httpError : Nat → List Char → ApiResponse
  | pyError : List Char → ApiResponse

/-- The download endpoint (api_server.py lines 365 to 383): the handler first
evaluates the attribute accesses building the directory list and then probes
each directory for the file; the loop is outside any try block, so a raised
AttributeError escapes to the framework.  The filesystem is modelled by the
predicate fs on paths. -/
def download_endpoint (fs : List Char → Bool) (filename : List Char) : ApiResponse :=
  match cm_lookup ( "ISSUED_DIR".toList) with
  | none => ApiResponse.pyError (attr_error_msg ( "ISSUED_DIR".toList))
  | some _ =>
    if fs ( "issued_certificates/".toList ++ filename) then
      ApiResponse.fileResponse ( "issued_certificates/".toList ++ filename)
    else
      match cm_lookup ( "CSR_DIR".toList) with
      | none => ApiResponse.pyError (attr_error_msg ( "CSR_DIR".toList))
      | some _ =>
        if fs ( "csr/".toList ++ filename) then
          ApiResponse.fileResponse ( "csr/".toList ++ filename)
        else
          match cm_lookup ( "CRL_DIR".toList) with
          | none => ApiResponse.pyError (attr_error_msg ( "CRL_DIR".toList))
          | some _ =>
            if fs ( "crl/".toList ++ filename) then
              ApiResponse.fileResponse ( "crl/".toList ++ filename)
            else ApiResponse.httpError 404 ( "File not found: ".toList ++ filename)

/-- The sign endpoint (api_server.py lines 248 to 276): inside its try block
the handler first evaluates the CSR_DIR attribute access; the raised
AttributeError is an Exception, so the blanket handler converts it into an
HTTPException with status 500.  Only after a successful lookup would the
existence check and the underlying manager operation run.  First component:
openssl command lines invoked by the underlying operation. -/
def sign_endpoint (oracle : Oracle) (cert_days : Nat) (csr_filename : List Char)
    (cert_type : List Char) (csr_exists : Bool) : List Cmd × ApiResponse :=
  match cm_lookup ( "CSR_DIR".toList) with
  | none => ([], ApiResponse.httpError 500 (attr_error_msg ( "CSR_DIR".toList)))
  | some _ =>
    if csr_exists = false then
      ([], ApiResponse.httpError 404 ( "CSR not found: ".toList ++ csr_filename))
    else
      let r := sign_certificate_cli oracle cert_days ( "csr/".toList ++ csr_filename) cert_type true
      match r.2 with
      | Except.error e => (r.1, ApiResponse.httpError 500 e)
      | Except.ok cert => (r.1, ApiResponse.ok (sign_success_body cert cert_days))

/-- The revoke endpoint (api_server.py lines 279 to 303), with the same
attribute access on ISSUED_DIR before its existence check and dispatch. -/
def revoke_endpoint (oracle : Oracle) (cert_filename : List Char) (cert_exists : Bool) :
    List Cmd × ApiResponse :=
  match cm_lookup ( "ISSUED_DIR".toList) with
  | none => ([], ApiResponse.httpError 500 (attr_error_msg ( "ISSUED_DIR".toList)))
  | some _ =>
    if cert_exists = false then
      ([], ApiResponse.httpError 404 ( "Certificate not found: ".toList ++ cert_filename))
    else
      let r := revoke_certificate oracle ( "issued_certificates/".toList ++ cert_filename) true
      match r.2 with
      | Except.error e => (r.1, ApiResponse.httpError 500 e)
      | Except.ok _ =>
        (r.1, ApiResponse.ok (revoke_success_body ( "issued_certificates/".toList ++ cert_filename)))

/-- The list endpoint (api_server.py lines 330 to 362): inside its try block
the handler evaluates the CA_DIR attribute access before touching the index
file; the AttributeError is caught and converted to an HTTPException with
status 500. -/
def list_endpoint (index_exists : Bool) (content : List Char) : ApiResponse :=
  match cm_lookup ( "CA_DIR".toList) with
  | none => ApiResponse.httpError 500 (attr_error_msg ( "CA_DIR".toList))
  | some _ =>
    if index_exists = false then
      ApiResponse.ok (JVal.obj [( "certificates".toList, JVal.arr [])])
    else
      match list_certificates_parse content with
      | Except.error e => ApiResponse.httpError 500 e
      | Except.ok entries => ApiResponse.ok (list_success_body entries)

/-- Unfolding pyReplaceFuel on the empty string. -/
theorem replFuel_nil (pat rep : List Char) (fuel : Nat) : pyReplaceFuel pat rep fuel [] = [] := by
  cases fuel <;> rfl

/-- Unfolding pyReplaceFuel on a nonempty string with positive fuel. -/
theorem replFuel_succ (pat rep : List Char) (fuel : Nat) (c : Char) (t : List Char) :
    pyReplaceFuel pat rep (fuel + 1) (c :: t) =
      if pat.isPrefixOf (c :: t) then rep ++ pyReplaceFuel pat rep fuel (t.drop (pat.length - 1))
      else c :: pyReplaceFuel pat rep fuel t := rfl

/-- A string in which the pattern does not occur is returned unchanged by the
replacement scan. -/
theorem replFuel_no_occ (pat rep : List Char) :
    ∀ (fuel : Nat) (s : List Char), ¬ pat <:+: s → pyReplaceFuel pat rep fuel s = s := by
  intro fuel
  induction fuel with
  | zero => intro s _; cases s <;> rfl
  | succ n ih =>
    intro s hs
    cases s with
    | nil => rfl
    | cons c t =>
      rw [replFuel_succ]
      have hp : pat.isPrefixOf (c :: t) = false := by
        rcases h : pat.isPrefixOf (c :: t) with _ | _
        · rfl
        · exact absurd ( List.isPrefixOf_iff_prefix.mp h).isInfix hs
      rw [hp]
      simp only [Bool.false_eq_true, if_false]
      have ht : ¬ pat <:+: t := fun h => hs (h.trans (List.suffix_cons c t).isInfix)
      rw [ih t ht]

/-- Every character of the replacement scan output comes from the scanned
string or from the replacement text. -/
theorem mem_replFuel (pat rep : List Char) :
    ∀ (fuel : Nat) (s : List Char) (c : Char), c ∈ pyReplaceFuel pat rep fuel s → c ∈ s ∨ c ∈ rep := by
  intro fuel
  induction fuel with
  | zero =>
    intro s c h
    cases s with
    | nil => rw [replFuel_nil] at h; exact absurd h (List.not_mem_nil c)
    | cons a t => exact Or.inl h
  | succ n ih =>
    intro s c h
    cases s with
    | nil => rw [replFuel_nil] at h; exact absurd h (List.not_mem_nil c)
    | cons a t =>
      rw [replFuel_succ] at h
      by_cases hp : pat.isPrefixOf (a :: t)
      · rw [if_pos hp] at h
        rcases List.mem_append.mp h with h1 | h2
        · exact Or.inr h1
        · rcases ih _ c h2 with h3 | h4
          · exact Or.inl (List.mem_cons_of_mem a (List.drop_subset _ _ h3))
          · exact Or.inr h4
      · rw [if_neg hp] at h
        rcases List.mem_cons.mp h with rfl | h2
        · exact Or.inl (List.mem_cons_self c t)
        · rcases ih t c h2 with h3 | h4
          · exact Or.inl (List.mem_cons_of_mem a h3)
          · exact Or.inr h4

/-- After replacing a single character that does not occur in the replacement
text, the character is gone, provided the fuel covers the string. -/
theorem replFuel_single_not_mem (p : Char) (rep : List Char) (hp : p ∉ rep) :
    ∀ (fuel : Nat) (s : List Char), s.length ≤ fuel → p ∉ pyReplaceFuel [p] rep fuel s := by
  intro fuel
  induction fuel with
  | zero =>
    intro s hs
    have : s = [] := List.eq_nil_of_length_eq_zero (Nat.le_zero.mp hs)
    subst this
    rw [replFuel_nil]
    exact List.not_mem_nil p
  | succ n ih =>
    intro s hs
    cases s with
    | nil => rw [replFuel_nil]; exact List.not_mem_nil p
    | cons a t =>
      rw [replFuel_succ]
      have hlen : t.length ≤ n := Nat.le_of_succ_le_succ (by simpa using hs)
      by_cases hpre : [p].isPrefixOf (a :: t)
      · rw [if_pos hpre]
        intro hmem
        rcases List.mem_append.mp hmem with h1 | h2
        · exact hp h1
        · have h3 : p ∉ pyReplaceFuel [p] rep n t := ih t hlen
          simp only [List.length_cons, List.length_nil, Nat.zero_add, Nat.sub_self,
            List.drop_zero] at h2
          exact h3 h2
      · rw [if_neg hpre]
        intro hmem
        rcases List.mem_cons.mp hmem with rfl | h2
        · exact hpre (by simp [List.isPrefixOf])
        · exact ih t hlen h2

/-- A string in which the pattern does not occur is returned unchanged by the
Python replace. -/
theorem py_replace_no_occ (s pat rep : List Char) (hne : pat ≠ [])
    (h : ¬ pat <:+: s) : py_replace s pat rep = s := by
  unfold py_replace
  rw [if_neg (by simp [hne])]
  exact replFuel_no_occ pat rep s.length s h

/-- Every character of the Python replace output comes from the input string
or from the replacement text. -/
theorem mem_py_replace (s pat rep : List Char) (c : Char) (h : c ∈ py_replace s pat rep) :
    c ∈ s ∨ c ∈ rep := by
  unfold py_replace at h
  by_cases he : pat.isEmpty
  · rw [if_pos he] at h
    rcases List.mem_append.mp h with h1 | h2
    · exact Or.inr h1
    · rcases List.mem_flatMap.mp h2 with ⟨a, ha, hc⟩
      rcases List.mem_cons.mp hc with rfl | h3
      · exact Or.inl ha
      · exact Or.inr h3
  · rw [if_neg he] at h
    exact mem_replFuel pat rep s.length s c h

/-- Replacing every occurrence of a single character by a text not containing
it leaves no occurrence of the character. -/
theorem py_replace_single_not_mem (s : List Char) (p : Char) (rep : List Char)
    (hp : p ∉ rep) : p ∉ py_replace s [p] rep := by
  unfold py_replace
  rw [if_neg (by simp)]
  exact replFuel_single_not_mem p rep hp s.length s (Nat.le_refl _)

/-- A template containing no placeholder of any mapped key is rendered
unchanged. -/
theorem render_of_no_placeholder (content : List Char)
    (vars : List (List Char × List Char))
    (h : ∀ kv ∈ vars, ¬ placeholder kv.1 <:+: content) :
    render_template_content content vars = content := by
  induction vars with
  | nil => rfl
  | cons kv rest ih =>
    unfold render_template_content at ih ⊢
    simp only [List.foldl_cons]
    rw [py_replace_no_occ content (placeholder kv.1) kv.2 (by simp [placeholder])
      (h kv (List.mem_cons_self kv rest))]
    exact ih (fun kv2 h2 => h kv2 (List.mem_cons_of_mem kv h2))

/-- A list of length six consists of exactly six elements. -/
theorem length_eq_six_shape {α : Type} (l : List α) (h : l.length = 6) :
    ∃ a b c d e f, l = [a, b, c, d, e, f] := by
  rcases l with _ | ⟨a, _ | ⟨b, _ | ⟨c, _ | ⟨d, _ | ⟨e, _ | ⟨f, _ | ⟨g, t⟩⟩⟩⟩⟩⟩⟩ <;>
    simp_all

/-- A line whose field count differs from six never yields an entry. -/
theorem line_entry_eq_none_of_ne_six (line : List Char)
    (h : (split_tab (py_strip line)).length ≠ 6) : line_entry line = none := by
  unfold line_entry
  rcases hl : split_tab (py_strip line) with _ | ⟨a, _ | ⟨b, _ | ⟨c, _ | ⟨d, _ | ⟨e, _ | ⟨f, _ | ⟨g, t⟩⟩⟩⟩⟩⟩⟩ <;>
    simp_all

/-- When no line carries more than six fields, the parse succeeds and reports
exactly the lines with six fields. -/
theorem parse_ok_of_bounded :
    ∀ lines : List (List Char),
      (∀ line ∈ lines, (split_tab (py_strip line)).length ≤ 6) →
      parse_index_lines lines = Except.ok (lines.filterMap line_entry) := by
  intro lines
  induction lines with
  | nil => intro _; rfl
  | cons line rest ih =>
    intro h
    have hl := h line (List.mem_cons_self line rest)
    have hrest := ih (fun l hm => h l (List.mem_cons_of_mem line hm))
    unfold parse_index_lines
    by_cases h6 : 6 ≤ (split_tab (py_strip line)).length
    · have hexact : (split_tab (py_strip line)).length = 6 := Nat.le_antisymm hl h6
      obtain ⟨a, b, c, d, e, f, heq⟩ := length_eq_six_shape _ hexact
      rw [if_pos h6, heq, hrest]
      have hle : line_entry line = some (CertEntry.mk a b c d f) := by
        unfold line_entry
        rw [heq]
      simp [List.filterMap_cons, hle]
    · rw [if_neg h6, hrest]
      have hle : line_entry line = none :=
        line_entry_eq_none_of_ne_six line (fun hx => h6 (Nat.le_of_eq hx.symm))
      simp [List.filterMap_cons, hle]

end Certmgr

open Certmgr

/-- C1: the openssl wrapper never returns a CompletedProcess with non-zero
returncode: a successful return has returncode zero and is the unmodified
tool result; a non-zero exit becomes an abort carrying the tool stderr text;
and an operation such as certificate revocation stops at the failing
invocation, running no later openssl step and surfacing that stderr text. -/
theorem c1_run_openssl_spec :
    (∀ r r2 : CompletedProcess, run_openssl r = Except.ok r2 → r2.returncode = 0 ∧ r2 = r)
    ∧ (∀ r : CompletedProcess, r.returncode ≠ 0 → run_openssl r = Except.error r.stderr)
    ∧ (∀ (oracle : Oracle) (cert : List Char), (oracle (cmd_revoke cert)).returncode ≠ 0 →
        revoke_certificate oracle cert true =
          ([cmd_revoke cert], Except.error (oracle (cmd_revoke cert)).stderr)) := by
  refine ⟨?_, ?_, ?_⟩
  · intro r r2 h
    unfold run_openssl at h
    by_cases hr : r.returncode ≠ 0
    · rw [if_pos hr] at h
      exact absurd h (by simp)
    · rw [if_neg hr] at h
      injection h with h2
      subst h2
      exact ⟨by omega, rfl⟩
  · intro r h
    unfold run_openssl
    rw [if_pos h]
  · intro oracle cert h
    have he : run_openssl (oracle (cmd_revoke cert)) =
        Except.error (oracle (cmd_revoke cert)).stderr := by
      unfold run_openssl
      rw [if_pos h]
    unfold revoke_certificate
    rw [if_neg (by simp), he]

/-- C1 witness: a concrete failing invocation aborts the revocation with the
stderr text of the tool. -/
theorem c1_run_openssl_witness :
    revoke_certificate (fun _ => CompletedProcess.mk 1 [] ( "eek".toList)) ( "c.pem".toList) true
      = ([cmd_revoke ( "c.pem".toList)], Except.error ( "eek".toList)) :=
  c1_run_openssl_spec.2.2 (fun _ => CompletedProcess.mk 1 [] ( "eek".toList)) ( "c.pem".toList)
    (by decide)

/-- C2 counterexample: the config endpoint answers with the raw configuration
object, the list endpoint with an object carrying only certificates and count,
and the health endpoint with service information, none of which has the
success, message and data fields, so not every REST endpoint returns the
uniform envelope. -/
theorem c2_envelope_counterexample :
    is_envelope (config_endpoint_body (default_config ( "localhost".toList))) = false
    ∧ is_envelope (list_success_body []) = false
    ∧ is_envelope (health_body ( "development".toList)) = false :=
  ⟨rfl, rfl, rfl⟩

/-- C2 (amended): the init, CA-creation, CSR, sign, revoke and CRL endpoints
build their success responses in the success/message/data envelope declared
by StatusResponse, while the health, certificate-list, file-download and
config endpoints do not use the envelope: the list body carries only the
certificates and count fields and the config body is the raw configuration
object. -/
theorem c2_envelope_amended :
    ∀ (cfg : List (List Char × JVal)) (cert chain key cn ty crl : List Char)
      (days : Nat) (entries : List CertEntry) (fqdn env : List Char),
      is_envelope (init_success_body cfg) = true
      ∧ is_envelope (root_ca_success_body cert days) = true
      ∧ is_envelope (inter_ca_success_body cert chain days) = true
      ∧ is_envelope (csr_success_body cert key cn ty) = true
      ∧ is_envelope (sign_success_body cert days) = true
      ∧ is_envelope (revoke_success_body cert) = true
      ∧ is_envelope (crl_success_body crl) = true
      ∧ is_envelope (list_success_body entries) = false
      ∧ is_envelope (config_endpoint_body (default_config fqdn)) = false
      ∧ is_envelope (health_body env) = false := by
  intro cfg cert chain key cn ty crl days entries fqdn env
  exact ⟨rfl, rfl, rfl, rfl, rfl, rfl, rfl, rfl, rfl, rfl⟩

/-- C3 counterexample: rendering the template that consists of the placeholder
of key B, with the insertion-ordered map sending A to the letter x and B to
the placeholder text of A, leaves the placeholder of the mapped key A in the
output: the replacement is not simultaneous and a placeholder of a mapped key
remains. -/
theorem c3_render_counterexample :
    ( "A".toList, "x".toList) ∈
      ([( "A".toList, "x".toList), ( "B".toList, "\x7b\x7bA\x7d\x7d".toList)] :
        List (List Char × List Char))
    ∧ placeholder ( "A".toList) <:+:
        render_template_content ( "\x7b\x7bB\x7d\x7d".toList)
          [( "A".toList, "x".toList), ( "B".toList, "\x7b\x7bA\x7d\x7d".toList)] :=
  ⟨by decide, by decide⟩

/-- C3 (amended): rendering replaces placeholders sequentially, one key at a
time in the iteration order of the map; a template that contains no
placeholder of any mapped key is returned unchanged, and a value substituted
for a later key can reintroduce the placeholder of an earlier mapped key,
which then remains in the output. -/
theorem c3_render_amended :
    (∀ (content : List Char) (vars : List (List Char × List Char)),
      (∀ kv ∈ vars, ¬ placeholder kv.1 <:+: content) →
      render_template_content content vars = content)
    ∧ (∃ (content : List Char) (vars : List (List Char × List Char)) (k v : List Char),
        (k, v) ∈ vars ∧ placeholder k <:+: render_template_content content vars) := by
  constructor
  · exact fun content vars h => render_of_no_placeholder content vars h
  · exact ⟨ "\x7b\x7bB\x7d\x7d".toList,
      [( "A".toList, "x".toList), ( "B".toList, "\x7b\x7bA\x7d\x7d".toList)],
      "A".toList, "x".toList, by decide, by decide⟩

/-- C3 witness: a concrete template without placeholders is rendered
unchanged. -/
theorem c3_render_witness :
    render_template_content ( "hello".toList) [( "K".toList, "v".toList)] = "hello".toList :=
  c3_render_amended.1 ( "hello".toList) [( "K".toList, "v".toList)] (by decide)

/-- C4: at the command line, signing with a missing CSR and revoking a missing
certificate abort with a not-found error and an empty command trace, before
any openssl invocation; at the REST boundary, however, the download handler
first evaluates the ISSUED_DIR attribute access, which fails on a
CertificateManager instance, so for every request, the nonexistent-file case
included, the endpoint ends in an uncaught AttributeError (an HTTP 500)
instead of the 404 stated by the claim and by the repository test. -/
theorem c4_not_found_behaviour :
    ∀ (oracle : Oracle) (days : Nat) (p ty fn : List Char) (fs : List Char → Bool),
      sign_certificate_cli oracle days p ty false
        = ([], Except.error ( "CSR not found: ".toList ++ p))
      ∧ revoke_certificate oracle p false
        = ([], Except.error ( "Certificate not found: ".toList ++ p))
      ∧ download_endpoint fs fn = ApiResponse.pyError (attr_error_msg ( "ISSUED_DIR".toList)) := by
  intro oracle days p ty fn fs
  refine ⟨?_, ?_, ?_⟩
  · unfold sign_certificate_cli
    rw [if_pos rfl]
  · unfold revoke_certificate
    rw [if_pos rfl]
  · unfold download_endpoint
    rw [show cm_lookup ( "ISSUED_DIR".toList) = none from rfl]

/-- C5 counterexample: an index line with seven tab-separated fields passes
the six-or-more guard but fails the six-name unpacking, so the listing raises
a ValueError instead of reporting the line, and therefore does not complete
without exception on every index content. -/
theorem c5_index_counterexample :
    list_certificates_parse ( "a\tb\tc\td\te\tf\tg".toList) = Except.error value_error_msg := by
  rfl

/-- C5 (amended): listing certificates completes without an exception for
every index content in which no line has more than six tab-separated fields
after stripping; lines with fewer than six fields are skipped and each line
with exactly six fields is reported with its status, expiry, revocation,
serial and subject fields.  A line with more than six fields instead aborts
the listing with an unpacking error. -/
theorem c5_index_parse_amended :
    ∀ content : List Char,
      (∀ line ∈ split_nl content, (split_tab (py_strip line)).length ≤ 6) →
      list_certificates_parse content = Except.ok ((split_nl content).filterMap line_entry) := by
  intro content h
  exact parse_ok_of_bounded (split_nl content) h

/-- C5 witness: a concrete index with one six-field line and one short line is
listed without exception, reporting exactly the six-field line. -/
theorem c5_index_parse_witness :
    list_certificates_parse ( "V\t250101000000Z\t\t1000\tunknown\t/CN=x\nshort".toList)
      = Except.ok ((split_nl ( "V\t250101000000Z\t\t1000\tunknown\t/CN=x\nshort".toList)).filterMap
          line_entry) :=
  c5_index_parse_amended ( "V\t250101000000Z\t\t1000\tunknown\t/CN=x\nshort".toList) (by decide)

/-- C6: init creates, for both the root and the intermediate CA directories,
the index file (empty when it was absent), the serial counter and the CRL
counter (the digits 1000 and a newline when they were absent), preserves the
content of any of those files that already exists, and is idempotent, so a
second init after a prior init changes none of the six files. -/
theorem c6_init_ca_files_spec :
    ∀ s : CAState,
      (init_ca_files s).root.index = some (s.root.index.getD [])
      ∧ (init_ca_files s).root.serial = some (s.root.serial.getD ( "1000\n".toList))
      ∧ (init_ca_files s).root.crlnumber = some (s.root.crlnumber.getD ( "1000\n".toList))
      ∧ (init_ca_files s).inter.index = some (s.inter.index.getD [])
      ∧ (init_ca_files s).inter.serial = some (s.inter.serial.getD ( "1000\n".toList))
      ∧ (init_ca_files s).inter.crlnumber = some (s.inter.crlnumber.getD ( "1000\n".toList))
      ∧ init_ca_files (init_ca_files s) = init_ca_files s := by
  intro s
  refine ⟨rfl, rfl, rfl, rfl, rfl, rfl, ?_⟩
  simp [init_ca_files, init_ca_dir]

/-- C7: the REST sign, revoke and list endpoints never reach the underlying
certificate-manager operation: each handler first evaluates an attribute
access (CSR_DIR, ISSUED_DIR, CA_DIR respectively) that fails on a
CertificateManager instance, so every request is answered with an HTTP 500
and the openssl command trace stays empty, while the corresponding CLI
subcommands do run the operations — the two interfaces are not façades over
identical operations in the code as written. -/
theorem c7_rest_never_dispatches :
    ∀ (oracle : Oracle) (days : Nat) (fn ty : List Char) (ex idx : Bool) (content : List Char),
      sign_endpoint oracle days fn ty ex
        = ([], ApiResponse.httpError 500 (attr_error_msg ( "CSR_DIR".toList)))
      ∧ revoke_endpoint oracle fn ex
        = ([], ApiResponse.httpError 500 (attr_error_msg ( "ISSUED_DIR".toList)))
      ∧ list_endpoint idx content
        = ApiResponse.httpError 500 (attr_error_msg ( "CA_DIR".toList)) := by
  intro oracle days fn ty ex idx content
  refine ⟨?_, ?_, ?_⟩
  · unfold sign_endpoint
    rw [show cm_lookup ( "CSR_DIR".toList) = none from rfl]
  · unfold revoke_endpoint
    rw [show cm_lookup ( "ISSUED_DIR".toList) = none from rfl]
  · unfold list_endpoint
    rw [show cm_lookup ( "CA_DIR".toList) = none from rfl]

/-- C8: when the certificate exists and the revoke invocation succeeds, the
operation continues into the CRL update unconditionally: the command trace is
the revoke command followed by the update trace, the CRL generation command
belongs to that update trace, and that command names the CRL file
crl/intermediate.crl.pem as its output. -/
theorem c8_revoke_updates_crl :
    ∀ (oracle : Oracle) (cert : List Char),
      (oracle (cmd_revoke cert)).returncode = 0 →
      (revoke_certificate oracle cert true).1 = cmd_revoke cert :: (update_crl oracle).1
      ∧ cmd_gencrl ∈ (update_crl oracle).1
      ∧ "crl/intermediate.crl.pem".toList ∈ cmd_gencrl := by
  intro oracle cert h
  have hok : run_openssl (oracle (cmd_revoke cert)) = Except.ok (oracle (cmd_revoke cert)) := by
    unfold run_openssl
    rw [if_neg (by simp [h])]
  refine ⟨?_, ?_, ?_⟩
  · unfold revoke_certificate
    rw [if_neg (by simp), hok]
  · unfold update_crl
    cases run_openssl (oracle cmd_gencrl) with
    | error e => simp
    | ok r =>
      cases run_openssl (oracle cmd_crl_text) <;> simp
  · simp [cmd_gencrl, crl_path]

/-- C8 witness: with a tool that succeeds on every command, revoking an
existing certificate runs the CRL generation command for the CRL file. -/
theorem c8_revoke_updates_crl_witness :
    (revoke_certificate (fun _ => CompletedProcess.mk 0 [] []) ( "c.pem".toList) true).1
      = cmd_revoke ( "c.pem".toList) :: (update_crl (fun _ => CompletedProcess.mk 0 [] [])).1
    ∧ cmd_gencrl ∈ (update_crl (fun _ => CompletedProcess.mk 0 [] [])).1
    ∧ "crl/intermediate.crl.pem".toList ∈ cmd_gencrl :=
  c8_revoke_updates_crl (fun _ => CompletedProcess.mk 0 [] []) ( "c.pem".toList) rfl

/-- C9: for every common name, the sanitised name used to build the key, CSR
and configuration file names contains no star and no slash. -/
theorem c9_safe_name_sanitized :
    ∀ common_name : List Char,
      '*' ∉ safe_name common_name ∧ '/' ∉ safe_name common_name := by
  intro cn
  have h1 : '*' ∉ py_replace cn ( "*".toList) ( "wildcard".toList) :=
    py_replace_single_not_mem cn '*' ( "wildcard".toList) (by decide)
  constructor
  · intro hmem
    rcases mem_py_replace _ _ _ _ hmem with h2 | h3
    · exact h1 h2
    · simp at h3
  · exact py_replace_single_not_mem _ '/' ( "_".toList) (by decide)

/-- C10: when the CA certificate already exists and the lowered interactive
answer is not the word yes, CA creation returns at once: no openssl
invocation, no file written, successful outcome — for the root CA and for the
intermediate CA alike. -/
theorem c10_ca_overwrite_guard :
    ∀ (oracle : Oracle) (days : Nat) (response : List Char),
      py_lower response ≠ "yes".toList →
      create_root_ca oracle days true response = ([], [], Except.ok ())
      ∧ create_intermediate_ca oracle days true response = ([], [], Except.ok ()) := by
  intro oracle days response h
  have hb : (py_lower response == "yes".toList) = false := by
    simp only [beq_eq_false_iff_ne]
    exact h
  constructor
  · unfold create_root_ca
    rw [hb]
    rfl
  · unfold create_intermediate_ca
    rw [hb]
    rfl

/-- C10 witness: answering no leaves both existing CAs untouched. -/
theorem c10_ca_overwrite_guard_witness :
    create_root_ca (fun _ => CompletedProcess.mk 0 [] []) 3650 true ( "no".toList)
      = ([], [], Except.ok ())
    ∧ create_intermediate_ca (fun _ => CompletedProcess.mk 0 [] []) 3650 true ( "no".toList)
      = ([], [], Except.ok ()) :=
  c10_ca_overwrite_guard (fun _ => CompletedProcess.mk 0 [] []) 3650 ( "no".toList) (by decide)


